import Mathlib

/-
Verification of the analysis-and-aggregation pipeline of the
News_Sentiment-App repository.

The development shallowly embeds the core of src/utils/gemini_service.py
(per-article analysis, comparative aggregation, retry wrapper) and of
src/utils/text_to_speech.py together with its superseded
.ipynb_checkpoints variant (translation pipeline).

Modelling conventions:
- Python strings are lists of characters, so slicing is List.take / List.drop.
- The md5 cache fingerprint is modelled by the fingerprinted string itself
  (md5 is collision-free for the purposes of this development, as the spec
  notes); the JSON file cache is an association list threaded as state.
- The external model call followed by JSON extraction is an oracle from the
  prompt string to an outcome (call failure, unparsable reply, or a parsed
  reply record); a parsed JSON object is a record of optional fields.
- Machine floats of the source carry exact small decimal values here; scores
  are rational numbers.
-/

/-- Python strings are modelled as lists of characters, so that slicing
    becomes List.take and List.drop. -/
abbrev Text := List Char

/-- Turn a Lean string literal into the character-list model of a Python
    string. -/
def txt (s : String) : Text := s.data

/-- The five sentiment labels that the post-processing step of
    analyze_article can assign (gemini_service.py lines 180-189). -/
inductive SentimentLabel where
  | veryNegative
  | negative
  | neutral
  | positive
  | veryPositive
deriving DecidableEq

/-- The label strings used by the source for each sentiment label. -/
def sentimentText : SentimentLabel → Text
  | .veryNegative => txt "Very Negative"
  | .negative => txt "Negative"
  | .neutral => txt "Neutral"
  | .positive => txt "Positive"
  | .veryPositive => txt "Very Positive"

/-- The fixed threshold table of gemini_service.py lines 180-189: the
    sentiment label derived from a sentiment score. -/
def sentimentLabelOfScore (score : ℚ) : SentimentLabel :=
  if score ≤ 3/2 then .veryNegative
  else if score ≤ 5/2 then .negative
  else if score ≤ 7/2 then .neutral
  else if score ≤ 9/2 then .positive
  else .veryPositive

/-- A parsed JSON reply of the per-article analysis call: a dictionary whose
    fields may each be absent (gemini_service.py lines 163-172 fill the
    defaults).  The proposed Sentiment label is an arbitrary string. -/
structure ModelReply where
  Title : Option Text := none
  Summary : Option Text := none
  Sentiment : Option Text := none
  Sentiment_Score : Option ℚ := none
  Topics : Option (List Text) := none
  Sentiment_Indicators : Option (List Text) := none
deriving DecidableEq

/-- The analysis record returned by analyze_article.  Every field is present
    because lines 163-176 fill defaults and lines 178-189 overwrite the label,
    so the Sentiment field always holds one of the five table labels. -/
structure AnalysisResult where
  Title : Text
  Summary : Text
  Sentiment : SentimentLabel
  Sentiment_Score : ℚ
  Topics : List Text
  Sentiment_Indicators : List Text
deriving DecidableEq

/-- The post-parse normalization of analyze_article (lines 163-189): default
    missing fields (Topics and Sentiment_Indicators to the empty list, the
    score to 3, strings to the empty string), restore the input title when the
    reply title is missing or empty, and recompute the sentiment label from
    the score, discarding the proposed label. -/
def postProcess (title : Text) (r : ModelReply) : AnalysisResult :=
  { Title := if r.Title.getD [] = [] then title else r.Title.getD []
    Summary := r.Summary.getD []
    Sentiment := sentimentLabelOfScore (r.Sentiment_Score.getD 3)
    Sentiment_Score := r.Sentiment_Score.getD 3
    Topics := r.Topics.getD []
    Sentiment_Indicators := r.Sentiment_Indicators.getD [] }

/-- Lookup in the JSON file cache of GeminiService, modelled as an
    association list keyed by the fingerprinted string. -/
def lookupCache {α : Type} (k : Text) : List (Text × α) → Option α
  | [] => none
  | (k', v) :: rest => if k' = k then some v else lookupCache k rest

/-- Write-through into the cache (gemini_service.py _save_to_cache). -/
def insertCache {α : Type} (k : Text) (v : α) (c : List (Text × α)) :
    List (Text × α) :=
  (k, v) :: c

/-- State threaded through analyze_article: the response cache and the number
    of outbound model calls issued so far. -/
structure AnalyzeState where
  cache : List (Text × AnalysisResult)
  calls : Nat
deriving DecidableEq

/-- The cache key of analyze_article (line 108): the fingerprint of the title
    and the first 1000 characters of the content, joined by an underscore. -/
def analysisCacheKey (title content : Text) : Text :=
  title ++ txt "_" ++ content.take 1000

/-- The fixed instruction block of the analysis prompt (lines 122-149).  The
    wording is irrelevant to every verified property; the constant is
    abbreviated to its opening sentence. -/
def analysisInstructions : Text :=
  txt "Analyze the above news article about a company and provide a concise summary, the sentiment on a 5-point scale, main topics, and key sentiment indicators, formatted as a JSON object."

/-- The prompt built by analyze_article (lines 117-150): the title, the first
    4000 characters of the content, and a fixed instruction block. -/
def analysisPrompt (title content : Text) : Text :=
  txt "Title: " ++ title ++ txt "\n\nContent: " ++ content.take 4000 ++
    txt "... (truncated)\n\n" ++ analysisInstructions

/-- Outcome of one logical external call as observed by the code following
    _call_api_with_retry and JSON extraction: the call raises, or its reply
    text cannot be parsed as JSON, or it parses to a reply value. -/
inductive CallOutcome (α : Type) where
  | failure
  | unparsable
  | parsed (reply : α)
deriving DecidableEq

/-- Shallow embedding of GeminiService.analyze_article (lines 96-197), with
    the external call plus JSON extraction abstracted as an oracle from the
    prompt to a call outcome.  A cache hit is returned verbatim; on a miss the
    oracle is consulted, and both a failed call and an unparsable reply
    propagate as an exception (lines 195-197); a successful reply is
    post-processed, written through the cache, and returned. -/
def analyze_article (oracle : Text → CallOutcome ModelReply)
    (title content : Text) (st : AnalyzeState) :
    Except Unit (AnalysisResult × AnalyzeState) :=
  match lookupCache (analysisCacheKey title content) st.cache with
  | some cached => .ok (cached, st)
  | none =>
    match oracle (analysisPrompt title content) with
    | .failure => .error ()
    | .unparsable => .error ()
    | .parsed reply =>
      .ok (postProcess title reply,
           ⟨insertCache (analysisCacheKey title content)
              (postProcess title reply) st.cache,
            st.calls + 1⟩)

/-- The five-label count dictionary initialized at gemini_service.py
    lines 223-229. -/
structure SentimentDistribution where
  veryPositive : Nat
  positive : Nat
  neutral : Nat
  negative : Nat
  veryNegative : Nat
deriving DecidableEq

/-- The all-zero initial distribution (lines 223-229). -/
def SentimentDistribution.empty : SentimentDistribution := ⟨0, 0, 0, 0, 0⟩

/-- One increment of the count under a given label (line 241).  The source
    guards the increment with membership in the five-key dictionary; input
    records are analyzer outputs, whose label is always one of the five, so
    the guard always passes. -/
def SentimentDistribution.bump (d : SentimentDistribution) :
    SentimentLabel → SentimentDistribution
  | .veryPositive => { d with veryPositive := d.veryPositive + 1 }
  | .positive => { d with positive := d.positive + 1 }
  | .neutral => { d with neutral := d.neutral + 1 }
  | .negative => { d with negative := d.negative + 1 }
  | .veryNegative => { d with veryNegative := d.veryNegative + 1 }

/-- The sum of the five counts of a distribution. -/
def SentimentDistribution.total (d : SentimentDistribution) : Nat :=
  d.veryPositive + d.positive + d.neutral + d.negative + d.veryNegative

/-- The local sentiment count of lines 238-241: one pass over the articles,
    incrementing the count under each article label. -/
def sentimentDistOf (articles : List AnalysisResult) : SentimentDistribution :=
  articles.foldl (fun d a => d.bump a.Sentiment) .empty

/-- total_score (lines 232 and 244): the sum of the article scores. -/
def totalScore (articles : List AnalysisResult) : ℚ :=
  articles.foldl (fun t a => t + a.Sentiment_Score) 0

/-- avg_sentiment_score (line 257): the mean score, 3.0 on an empty list. -/
def avgSentimentScore (articles : List AnalysisResult) : ℚ :=
  if articles = [] then 3 else totalScore articles / articles.length

/-- all_topics (lines 234 and 254): the concatenation of every article topic
    list, in article order. -/
def allTopicsOf (articles : List AnalysisResult) : List Text :=
  (articles.map fun a => a.Topics).flatten

/-- The distinct elements of a list in first-occurrence order.  These are
    exactly the members of the Python expression set(xs); the spec phrase
    first distinct topics observed denotes this ordering. -/
def distinctFirst (xs : List Text) : List Text :=
  xs.foldl (fun acc x => if x ∈ acc then acc else acc ++ [x]) []

/-- One Coverage_Differences entry. -/
structure CoverageDiff where
  Comparison : Text
  Articles_Involved : List Text
  Impact : Text
deriving DecidableEq

/-- The Sentiment_Drivers record. -/
structure SentimentDrivers where
  Positive_Factors : List Text
  Negative_Factors : List Text
deriving DecidableEq

/-- The Topic_Analysis record. -/
structure TopicAnalysis where
  Common_Topics : List Text
  Topic_Sentiment_Map : List (Text × Text)
deriving DecidableEq

/-- The comparative-analysis record returned by
    generate_comparative_analysis.  Sentiment_Trend stays optional: on the
    successful-parse path the source never defaults it, so it is absent
    whenever the model omitted it. -/
structure ComparativeAnalysis where
  Sentiment_Distribution : SentimentDistribution
  Average_Sentiment_Score : ℚ
  Sentiment_Trend : Option Text
  Coverage_Differences : List CoverageDiff
  Sentiment_Drivers : SentimentDrivers
  Topic_Analysis : TopicAnalysis
deriving DecidableEq

/-- A parsed JSON reply of the aggregation call: every field may be absent.
    The model-proposed distribution and average are discarded by lines
    352-353 whatever they hold. -/
structure CompReply where
  Sentiment_Distribution : Option SentimentDistribution := none
  Average_Sentiment_Score : Option ℚ := none
  Sentiment_Trend : Option Text := none
  Coverage_Differences : Option (List CoverageDiff) := none
  Sentiment_Drivers : Option SentimentDrivers := none
  Topic_Analysis : Option TopicAnalysis := none
deriving DecidableEq

/-- State threaded through generate_comparative_analysis. -/
structure AggState where
  cache : List (Text × ComparativeAnalysis)
  calls : Nat
deriving DecidableEq

/-- The cache key of generate_comparative_analysis (lines 213-214): comp_,
    the company name, and the first three article titles truncated to 20
    characters and joined by underscores. -/
def compCacheKey (company : Text) (articles : List AnalysisResult) : Text :=
  txt "comp_" ++ company ++ txt "_" ++
    List.intercalate (txt "_") ((articles.take 3).map fun a => a.Title.take 20)

/-- The per-article digest block of the aggregation prompt (lines 261-275):
    title, summary, sentiment with score, topics and indicators.  Fixed
    wording abbreviated. -/
def articleDigest (i : Nat) (a : AnalysisResult) : Text :=
  txt "Article " ++ (reprStr (i + 1)).data ++ txt ": " ++ a.Title ++
    txt " Summary: " ++ a.Summary ++
    txt " Sentiment: " ++ sentimentText a.Sentiment ++
    txt " Score: " ++ (reprStr a.Sentiment_Score).data ++
    txt " Topics: " ++ List.intercalate (txt ", ") a.Topics ++
    txt " Indicators: " ++ List.intercalate (txt ", ") a.Sentiment_Indicators

/-- The aggregation prompt (lines 280-337): a fixed instruction block around
    the company name and the digest of every article.  The fixed text, and
    the echo of the locally computed distribution and average inside the
    requested JSON shape, are abbreviated; only the data dependence matters
    to the verified properties. -/
def aggPrompt (company : Text) (articles : List AnalysisResult) : Text :=
  txt "Company: " ++ company ++ txt "\n\nArticles: " ++
    List.intercalate (txt "\n\n")
      (articles.enum.map fun p => articleDigest p.1 p.2) ++
    txt "\n\nTASK: Generate a DETAILED comparative analysis of how news coverage differs across these articles."

/-- The synthetic fallback Coverage_Differences entry of lines 357-363,
    referencing the first two article titles. -/
def fallbackCoverage (articles : List AnalysisResult) : CoverageDiff :=
  { Comparison := txt "Differences in reporting emphasis"
    Articles_Involved := (articles.take 2).map fun a => a.Title
    Impact := txt "Creates varied impressions of company priorities" }

/-- Lines 356-363: a missing or empty Coverage_Differences list is replaced
    by the single synthetic fallback entry. -/
def coverageOf (articles : List AnalysisResult) :
    Option (List CoverageDiff) → List CoverageDiff
  | none => [fallbackCoverage articles]
  | some [] => [fallbackCoverage articles]
  | some cs => cs

/-- The degraded result built when the aggregation reply cannot be parsed as
    JSON (lines 384-403): local distribution and average, a fixed trend
    message, one fallback coverage entry, empty drivers, and topics defaulted
    from the observed topics.  setOrder is the iteration order of the Python
    set conversion, see generate_comparative_analysis. -/
def basicResult (setOrder : List Text → List Text)
    (articles : List AnalysisResult) : ComparativeAnalysis :=
  { Sentiment_Distribution := sentimentDistOf articles
    Average_Sentiment_Score := avgSentimentScore articles
    Sentiment_Trend := some (txt "Unable to determine due to processing error")
    Coverage_Differences :=
      [{ Comparison := txt "Analysis encountered an error"
         Articles_Involved := (articles.take 2).map fun a => a.Title
         Impact := txt "Complete comparative analysis not available" }]
    Sentiment_Drivers := ⟨[], []⟩
    Topic_Analysis := ⟨(setOrder (allTopicsOf articles)).take 5, []⟩ }

/-- The result built on a successful parse (lines 349-376): the locally
    computed distribution and average overwrite the model-proposed values
    (lines 352-353), a missing or empty coverage list gets the fallback entry
    (lines 356-363), drivers default to empty lists (lines 366-370), and a
    missing topic analysis defaults to the truncated set conversion of the
    observed topics with an empty sentiment map (lines 372-376). -/
def parsedResult (setOrder : List Text → List Text)
    (articles : List AnalysisResult) (reply : CompReply) :
    ComparativeAnalysis :=
  { Sentiment_Distribution := sentimentDistOf articles
    Average_Sentiment_Score := avgSentimentScore articles
    Sentiment_Trend := reply.Sentiment_Trend
    Coverage_Differences := coverageOf articles reply.Coverage_Differences
    Sentiment_Drivers := reply.Sentiment_Drivers.getD ⟨[], []⟩
    Topic_Analysis := reply.Topic_Analysis.getD
      ⟨(setOrder (allTopicsOf articles)).take 5, []⟩ }

/-- Shallow embedding of GeminiService.generate_comparative_analysis
    (lines 200-409).  The oracle abstracts the external call plus JSON
    extraction; a call failure propagates (lines 407-409) while an unparsable
    reply yields the cached degraded result (lines 381-405).  setOrder models
    the unspecified, hash-dependent iteration order of the Python expression
    list(set(all_topics)) (lines 374 and 400): it is an environment
    parameter, constrained where a theorem needs it to enumerate exactly the
    distinct observed topics. -/
def generate_comparative_analysis (oracle : Text → CallOutcome CompReply)
    (setOrder : List Text → List Text)
    (company : Text) (articles : List AnalysisResult) (st : AggState) :
    Except Unit (ComparativeAnalysis × AggState) :=
  match lookupCache (compCacheKey company articles) st.cache with
  | some cached => .ok (cached, st)
  | none =>
    match oracle (aggPrompt company articles) with
    | .failure => .error ()
    | .unparsable =>
      .ok (basicResult setOrder articles,
           ⟨insertCache (compCacheKey company articles)
              (basicResult setOrder articles) st.cache,
            st.calls + 1⟩)
    | .parsed reply =>
      .ok (parsedResult setOrder articles reply,
           ⟨insertCache (compCacheKey company articles)
              (parsedResult setOrder articles reply) st.cache,
            st.calls + 1⟩)

/-- One underlying attempt of model.generate_content as seen by the retry
    loop (gemini_service.py line 53): it returns a reply text, or raises an
    exception whose message contains 429 (rate limited), or raises any other
    exception. -/
inductive Attempt where
  | ok (text : Text)
  | err (rateLimited : Bool)
deriving DecidableEq

/-- Cause carried by the exception that _call_api_with_retry raises: the
    re-raised underlying exception (with or without a 429 cause, line 64), or
    the unreachable max-retries exception of line 66. -/
inductive ApiError where
  | rateLimited
  | other
  | maxRetries
deriving DecidableEq

/-- The retry loop of _call_api_with_retry (lines 50-66), with the successive
    underlying attempts supplied by gen (attempt number to outcome) and the
    backoff sleeps performed so far accumulated in order.  rate_limit_retries
    is 3 and rate_limit_backoff is 2 seconds (lines 22-23): a 429 failure with
    retry budget left sleeps 2 * 2 ^ retries seconds and retries; any other
    failure, or a 429 failure with the budget exhausted, re-raises. -/
def retryLoop (gen : Nat → Attempt) (retries : Nat) (sleeps : List Nat) :
    Except (ApiError × List Nat) (Text × List Nat) :=
  if retries ≤ 3 then
    match gen retries with
    | .ok t => .ok (t, sleeps)
    | .err rate =>
      if h : rate = true ∧ retries < 3 then
        retryLoop gen (retries + 1) (sleeps ++ [2 * 2 ^ retries])
      else
        .error ((if rate then ApiError.rateLimited else ApiError.other), sleeps)
  else
    .error (ApiError.maxRetries, sleeps)
termination_by 4 - retries
decreasing_by
  obtain ⟨-, h2⟩ := h
  omega

/-- Shallow embedding of GeminiService._call_api_with_retry (lines 40-66):
    the retry loop entered with zero retries and no sleeps performed. -/
def _call_api_with_retry (gen : Nat → Attempt) :
    Except (ApiError × List Nat) (Text × List Nat) :=
  retryLoop gen 0 []

/-- State threaded through the translation operations: the translation cache,
    the number of primary (configured backend) calls, the number of fallback
    (MyMemory) calls of the checkpoint variant, and the seconds of pacing
    delay slept. -/
structure TransState where
  cache : List (Text × Text)
  calls : Nat
  fallbackCalls : Nat
  sleeps : Nat
deriving DecidableEq

/-- The cache key of translate_to_hindi (text_to_speech.py line 63): the
    fingerprint of the first 1000 characters of the input text. -/
def translationCacheKey (text : Text) : Text := text.take 1000

/-- The translation prompt of the live module (line 71). -/
def translationPrompt (text : Text) : Text :=
  txt "Translate the following English text to Hindi. Return ONLY the Hindi translation, no additional comments:\n\n" ++ text

/-- Python str.strip: remove leading and trailing whitespace. -/
def stripText (t : Text) : Text :=
  ((t.dropWhile Char.isWhitespace).reverse.dropWhile Char.isWhitespace).reverse

/-- Shallow embedding of TextToSpeechService.translate_to_hindi in the live
    module src/utils/text_to_speech.py (lines 52-79): on a cache miss the
    whole text, whatever its length, is submitted in a single call, the
    stripped reply is cached and returned, and a failed call raises
    (lines 77-79).  There is no chunking in the live module.  The caller
    oracle maps the prompt to the reply text of the gemini retry wrapper, or
    to none when that call raises. -/
def translate_to_hindi (caller : Text → Option Text) (text : Text)
    (st : TransState) : Except Unit (Text × TransState) :=
  match lookupCache (translationCacheKey text) st.cache with
  | some cached => .ok (cached, st)
  | none =>
    match caller (translationPrompt text) with
    | none => .error ()
    | some reply =>
      .ok (stripText reply,
           { st with
              cache := insertCache (translationCacheKey text)
                (stripText reply) st.cache,
              calls := st.calls + 1 })

/-- The chunk decomposition of the checkpoint variant (checkpoint line 109):
    text sliced into consecutive pieces of n characters, the final piece
    shorter when the length is not a multiple of n. -/
def chunksOf (n : Nat) (t : Text) : List Text :=
  if t = [] then []
  else if n = 0 then [t]
  else t.take n :: chunksOf n (t.drop n)
termination_by t.length
decreasing_by
  rename_i ht hn
  have hpos : 0 < t.length := List.length_pos.mpr ht
  simp only [List.length_drop]
  omega

/-- One chunk translation of the checkpoint variant (_translate_chunk,
    checkpoint lines 127-145, composed with _fallback_translate, lines
    203-219): the configured backend call; on any exception the MyMemory
    fallback is tried instead; if that also fails, the original chunk text is
    returned.  No exception escapes.  The state counts both kinds of call. -/
def translateChunkCkpt (primary fallback : Text → Option Text) (chunk : Text)
    (st : TransState) : Text × TransState :=
  match primary chunk with
  | some r => (r, { st with calls := st.calls + 1 })
  | none =>
    match fallback chunk with
    | some r => (r, { st with calls := st.calls + 1,
                              fallbackCalls := st.fallbackCalls + 1 })
    | none => (chunk, { st with calls := st.calls + 1,
                                fallbackCalls := st.fallbackCalls + 1 })

/-- One iteration of the chunk loop of the checkpoint variant (checkpoint
    lines 112-116): sleep one second, translate the chunk, append its result
    to the accumulated translation. -/
def ckptStep (primary fallback : Text → Option Text)
    (acc : Text × TransState) (chunk : Text) : Text × TransState :=
  let slept := { acc.2 with sleeps := acc.2.sleeps + 1 }
  let r := translateChunkCkpt primary fallback chunk slept
  (acc.1 ++ r.1, r.2)

/-- Shallow embedding of translate_to_hindi in the superseded checkpoint
    variant src/utils/.ipynb_checkpoints/text_to_speech-checkpoint.py
    (lines 89-125): cache, then 4000-character chunking when the text is
    longer than 4000 characters, a one-second sleep before each chunk call
    (line 114), per-chunk translation with fallback, concatenation of the
    chunk results in order with no separator (line 118), and caching of the
    reassembled text.  The source appends chunk results to a list and joins
    with the empty separator; the fold below concatenates directly, which is
    the same text. -/
def translate_to_hindi_ckpt (primary fallback : Text → Option Text)
    (text : Text) (st : TransState) : Text × TransState :=
  match lookupCache (translationCacheKey text) st.cache with
  | some cached => (cached, st)
  | none =>
    let run : Text × TransState :=
      if 4000 < text.length then
        (chunksOf 4000 text).foldl (ckptStep primary fallback) ([], st)
      else
        translateChunkCkpt primary fallback text st
    (run.1, { run.2 with
                cache := insertCache (translationCacheKey text) run.1
                  run.2.cache })

theorem lookupCache_insert_self {α : Type} (k : Text) (v : α)
    (c : List (Text × α)) : lookupCache k (insertCache k v c) = some v := by
  simp [lookupCache, insertCache]

/-- A reply used by several concrete witnesses: the model proposes the label
    Positive together with the score 2. -/
def sampleReply : ModelReply :=
  { Sentiment := some (txt "Positive"), Sentiment_Score := some 2 }

/-- An oracle answering every analysis prompt with sampleReply. -/
def sampleOracle : Text → CallOutcome ModelReply := fun _ => .parsed sampleReply

/-- C1: for every article analyzed on a cache miss, the returned sentiment
    label is derived from the sentiment score by the fixed threshold table,
    overwriting whatever label the model reply proposed; at the boundaries
    1.5, 2.5, 3.5 and 4.5 the lower label is chosen and just above each
    boundary the next label is chosen. -/
theorem c1_label_derived_from_score
    (oracle : Text → CallOutcome ModelReply) (title content : Text)
    (st : AnalyzeState) (r : AnalysisResult) (st' : AnalyzeState)
    (reply : ModelReply)
    (hmiss : lookupCache (analysisCacheKey title content) st.cache = none)
    (hor : oracle (analysisPrompt title content) = .parsed reply)
    (h : analyze_article oracle title content st = .ok (r, st')) :
    r.Sentiment = sentimentLabelOfScore (reply.Sentiment_Score.getD 3) ∧
    r.Sentiment = sentimentLabelOfScore r.Sentiment_Score ∧
    (∀ s : Option Text,
        postProcess title { reply with Sentiment := s } =
          postProcess title reply) ∧
    sentimentLabelOfScore (3/2) = .veryNegative ∧
    sentimentLabelOfScore (151/100) = .negative ∧
    sentimentLabelOfScore (5/2) = .negative ∧
    sentimentLabelOfScore (251/100) = .neutral ∧
    sentimentLabelOfScore (7/2) = .neutral ∧
    sentimentLabelOfScore (351/100) = .positive ∧
    sentimentLabelOfScore (9/2) = .positive ∧
    sentimentLabelOfScore (451/100) = .veryPositive := by
  simp only [analyze_article, hmiss, hor] at h
  have hr : r = postProcess title reply := by
    cases h
    rfl
  subst hr
  refine ⟨rfl, rfl, fun s => rfl, ?_, ?_, ?_, ?_, ?_, ?_, ?_, ?_⟩
  all_goals norm_num [sentimentLabelOfScore]

theorem c1_label_derived_from_score_witness :
    lookupCache (analysisCacheKey (txt "T") (txt "c"))
        (AnalyzeState.mk [] 0).cache = none ∧
    sampleOracle (analysisPrompt (txt "T") (txt "c")) =
      .parsed sampleReply ∧
    analyze_article sampleOracle (txt "T") (txt "c") ⟨[], 0⟩ =
      .ok (postProcess (txt "T") sampleReply,
           ⟨insertCache (analysisCacheKey (txt "T") (txt "c"))
              (postProcess (txt "T") sampleReply) [], 1⟩) ∧
    (postProcess (txt "T") sampleReply).Sentiment =
      sentimentLabelOfScore (sampleReply.Sentiment_Score.getD 3) ∧
    (postProcess (txt "T") sampleReply).Sentiment =
      sentimentLabelOfScore (postProcess (txt "T") sampleReply).Sentiment_Score ∧
    sentimentLabelOfScore (3/2) = .veryNegative ∧
    sentimentLabelOfScore (451/100) = .veryPositive :=
  have h := c1_label_derived_from_score sampleOracle (txt "T") (txt "c")
    ⟨[], 0⟩ (postProcess (txt "T") sampleReply)
    ⟨insertCache (analysisCacheKey (txt "T") (txt "c"))
       (postProcess (txt "T") sampleReply) [], 1⟩
    sampleReply rfl rfl rfl
  ⟨rfl, rfl, rfl, h.1, h.2.1, h.2.2.2.1, h.2.2.2.2.2.2.2.2.2.2⟩

/-- C9: with the cache initially cold for the key of the given pair, a first
    analyze_article call issues exactly one external call and stores its
    result, and a second call with the identical pair is served from the
    cache: it returns the same value and leaves the state (in particular the
    call count) unchanged. -/
theorem c9_cache_idempotent
    (oracle : Text → CallOutcome ModelReply) (title content : Text)
    (st : AnalyzeState) (r : AnalysisResult) (st' : AnalyzeState)
    (hmiss : lookupCache (analysisCacheKey title content) st.cache = none)
    (h : analyze_article oracle title content st = .ok (r, st')) :
    st'.calls = st.calls + 1 ∧
    lookupCache (analysisCacheKey title content) st'.cache = some r ∧
    analyze_article oracle title content st' = .ok (r, st') := by
  cases hor : oracle (analysisPrompt title content) with
  | failure => simp [analyze_article, hmiss, hor] at h
  | unparsable => simp [analyze_article, hmiss, hor] at h
  | parsed reply =>
    simp only [analyze_article, hmiss, hor] at h
    cases h
    refine ⟨rfl, lookupCache_insert_self _ _ _, ?_⟩
    simp [analyze_article, lookupCache_insert_self]

theorem c9_cache_idempotent_witness :
    lookupCache (analysisCacheKey (txt "T") (txt "c"))
        (AnalyzeState.mk [] 0).cache = none ∧
    analyze_article sampleOracle (txt "T") (txt "c") ⟨[], 0⟩ =
      .ok (postProcess (txt "T") sampleReply,
           ⟨insertCache (analysisCacheKey (txt "T") (txt "c"))
              (postProcess (txt "T") sampleReply) [], 1⟩) ∧
    (AnalyzeState.mk
        (insertCache (analysisCacheKey (txt "T") (txt "c"))
          (postProcess (txt "T") sampleReply) []) 1).calls =
      (AnalyzeState.mk [] 0).calls + 1 ∧
    lookupCache (analysisCacheKey (txt "T") (txt "c"))
        (AnalyzeState.mk
          (insertCache (analysisCacheKey (txt "T") (txt "c"))
            (postProcess (txt "T") sampleReply) []) 1).cache =
      some (postProcess (txt "T") sampleReply) ∧
    analyze_article sampleOracle (txt "T") (txt "c")
        ⟨insertCache (analysisCacheKey (txt "T") (txt "c"))
           (postProcess (txt "T") sampleReply) [], 1⟩ =
      .ok (postProcess (txt "T") sampleReply,
           ⟨insertCache (analysisCacheKey (txt "T") (txt "c"))
              (postProcess (txt "T") sampleReply) [], 1⟩) :=
  have h := c9_cache_idempotent sampleOracle (txt "T") (txt "c") ⟨[], 0⟩
    (postProcess (txt "T") sampleReply)
    ⟨insertCache (analysisCacheKey (txt "T") (txt "c"))
       (postProcess (txt "T") sampleReply) [], 1⟩ rfl rfl
  ⟨rfl, rfl, h.1, h.2.1, h.2.2⟩

theorem analysisCacheKey_take (t c : Text) :
    analysisCacheKey t c = analysisCacheKey t (c.take 1000) := by
  simp [analysisCacheKey, List.take_take]

theorem analysisPrompt_take (t c : Text) :
    analysisPrompt t c = analysisPrompt t (c.take 4000) := by
  simp [analysisPrompt, List.take_take]

/-- C10: the analysis cache key depends only on the title and the first 1000
    characters of the content while the prompt uses the first 4000; hence for
    two contents agreeing on their first 1000 characters, once the first one
    has been analyzed on a cache miss, analyzing the second returns the
    record computed for the first with the state unchanged, so no further
    external call is issued. -/
theorem c10_cache_key_prefix_hyperproperty
    (oracle : Text → CallOutcome ModelReply) (title c1 c2 : Text)
    (st : AnalyzeState) (r : AnalysisResult) (st' : AnalyzeState)
    (hpre : c1.take 1000 = c2.take 1000)
    (hmiss : lookupCache (analysisCacheKey title c1) st.cache = none)
    (h : analyze_article oracle title c1 st = .ok (r, st')) :
    analyze_article oracle title c2 st' = .ok (r, st') ∧
    st'.calls = st.calls + 1 ∧
    analysisCacheKey title c2 = analysisCacheKey title c1 ∧
    (∀ t c, analysisCacheKey t c = analysisCacheKey t (c.take 1000)) ∧
    (∀ t c, analysisPrompt t c = analysisPrompt t (c.take 4000)) := by
  have hkey : analysisCacheKey title c2 = analysisCacheKey title c1 := by
    simp [analysisCacheKey, hpre]
  cases hor : oracle (analysisPrompt title c1) with
  | failure => simp [analyze_article, hmiss, hor] at h
  | unparsable => simp [analyze_article, hmiss, hor] at h
  | parsed reply =>
    simp only [analyze_article, hmiss, hor] at h
    cases h
    refine ⟨?_, rfl, hkey, analysisCacheKey_take, analysisPrompt_take⟩
    simp [analyze_article, hkey, lookupCache_insert_self]

theorem c10_cache_key_prefix_hyperproperty_witness :
    (List.replicate 1500 'a').take 1000 =
      (List.replicate 1200 'a').take 1000 ∧
    lookupCache (analysisCacheKey (txt "T") (List.replicate 1500 'a'))
        (AnalyzeState.mk [] 0).cache = none ∧
    analyze_article sampleOracle (txt "T") (List.replicate 1500 'a')
        ⟨[], 0⟩ =
      .ok (postProcess (txt "T") sampleReply,
           ⟨insertCache (analysisCacheKey (txt "T") (List.replicate 1500 'a'))
              (postProcess (txt "T") sampleReply) [], 1⟩) ∧
    analyze_article sampleOracle (txt "T") (List.replicate 1200 'a')
        ⟨insertCache (analysisCacheKey (txt "T") (List.replicate 1500 'a'))
           (postProcess (txt "T") sampleReply) [], 1⟩ =
      .ok (postProcess (txt "T") sampleReply,
           ⟨insertCache (analysisCacheKey (txt "T") (List.replicate 1500 'a'))
              (postProcess (txt "T") sampleReply) [], 1⟩) ∧
    List.replicate 1500 'a' ≠ List.replicate 1200 'a' :=
  have hpre : (List.replicate 1500 'a').take 1000 =
      (List.replicate 1200 'a').take 1000 := by
    rw [List.take_replicate, List.take_replicate]
    norm_num
  have h := c10_cache_key_prefix_hyperproperty sampleOracle (txt "T")
    (List.replicate 1500 'a') (List.replicate 1200 'a') ⟨[], 0⟩
    (postProcess (txt "T") sampleReply)
    ⟨insertCache (analysisCacheKey (txt "T") (List.replicate 1500 'a'))
       (postProcess (txt "T") sampleReply) [], 1⟩ hpre rfl rfl
  ⟨hpre, rfl, rfl, h.1, fun hEq => by
    have hlen := congrArg List.length hEq
    rw [List.length_replicate, List.length_replicate] at hlen
    norm_num at hlen⟩

theorem SentimentDistribution.bump_total (d : SentimentDistribution)
    (s : SentimentLabel) : (d.bump s).total = d.total + 1 := by
  cases s <;> simp [SentimentDistribution.bump, SentimentDistribution.total]
    <;> omega

theorem sentimentDist_foldl_total (l : List AnalysisResult)
    (d : SentimentDistribution) :
    (l.foldl (fun d a => d.bump a.Sentiment) d).total = d.total + l.length := by
  induction l generalizing d with
  | nil => simp
  | cons a l ih =>
    simp only [List.foldl_cons, ih, SentimentDistribution.bump_total,
      List.length_cons]
    omega

/-- The five counts of the locally recomputed distribution sum to the number
    of input articles. -/
theorem sentimentDistOf_total (articles : List AnalysisResult) :
    (sentimentDistOf articles).total = articles.length := by
  unfold sentimentDistOf
  rw [sentimentDist_foldl_total]
  simp [SentimentDistribution.empty, SentimentDistribution.total]

/-- Sample analyzer outputs used by concrete witnesses: scores 1, 5 and 3
    with the labels the threshold table assigns them. -/
def artVN : AnalysisResult := ⟨txt "A1", txt "s1", .veryNegative, 1, [txt "t1"], []⟩

/-- Second sample article. -/
def artVP : AnalysisResult := ⟨txt "A2", txt "s2", .veryPositive, 5, [txt "t2"], []⟩

/-- Third sample article. -/
def artNeu : AnalysisResult := ⟨txt "A3", txt "s3", .neutral, 3, [txt "t1"], []⟩

/-- The three sample articles together. -/
def sampleArticles : List AnalysisResult := [artVN, artVP, artNeu]

/-- An aggregation oracle answering every prompt with the empty parsed
    reply (every field absent). -/
def emptyCompOracle : Text → CallOutcome CompReply := fun _ => .parsed {}

/-- C2: for every non-empty article list aggregated on a cache miss, the
    returned distribution is the locally recomputed one — whatever
    distribution the model reply proposed — and its five counts sum to the
    number of input articles. -/
theorem c2_distribution_recomputed_sums
    (oracle : Text → CallOutcome CompReply)
    (setOrder : List Text → List Text) (company : Text)
    (articles : List AnalysisResult) (st : AggState)
    (r : ComparativeAnalysis) (st' : AggState)
    (hne : articles ≠ [])
    (hmiss : lookupCache (compCacheKey company articles) st.cache = none)
    (h : generate_comparative_analysis oracle setOrder company articles st =
      .ok (r, st')) :
    r.Sentiment_Distribution = sentimentDistOf articles ∧
    (sentimentDistOf articles).total = articles.length := by
  refine ⟨?_, sentimentDistOf_total articles⟩
  cases hor : oracle (aggPrompt company articles) with
  | failure => simp [generate_comparative_analysis, hmiss, hor] at h
  | unparsable =>
    simp only [generate_comparative_analysis, hmiss, hor] at h
    cases h
    rfl
  | parsed reply =>
    simp only [generate_comparative_analysis, hmiss, hor] at h
    cases h
    rfl

theorem c2_distribution_recomputed_sums_witness :
    sampleArticles ≠ [] ∧
    lookupCache (compCacheKey (txt "Acme") sampleArticles)
        (AggState.mk [] 0).cache = none ∧
    generate_comparative_analysis emptyCompOracle distinctFirst (txt "Acme")
        sampleArticles ⟨[], 0⟩ =
      .ok (parsedResult distinctFirst sampleArticles {},
           ⟨insertCache (compCacheKey (txt "Acme") sampleArticles)
              (parsedResult distinctFirst sampleArticles {}) [], 1⟩) ∧
    (parsedResult distinctFirst sampleArticles {}).Sentiment_Distribution =
      sentimentDistOf sampleArticles ∧
    (sentimentDistOf sampleArticles).total = sampleArticles.length :=
  have h := c2_distribution_recomputed_sums emptyCompOracle distinctFirst
    (txt "Acme") sampleArticles ⟨[], 0⟩
    (parsedResult distinctFirst sampleArticles {})
    ⟨insertCache (compCacheKey (txt "Acme") sampleArticles)
       (parsedResult distinctFirst sampleArticles {}) [], 1⟩
    (by simp [sampleArticles]) rfl rfl
  ⟨by simp [sampleArticles], rfl, rfl, h.1, h.2⟩

/-- C3: when the aggregation call succeeds but its reply cannot be parsed as
    JSON, the operation does not raise: it returns and caches the degraded
    result with the locally computed distribution and average, the fixed
    trend message, exactly one fallback coverage entry, empty driver lists
    and topics defaulted from the observed topics; a failure of the outbound
    call itself, by contrast, propagates. -/
theorem c3_parse_failure_degrades
    (oracleU oracleF : Text → CallOutcome CompReply)
    (setOrder : List Text → List Text) (company : Text)
    (articles : List AnalysisResult) (st : AggState)
    (hmiss : lookupCache (compCacheKey company articles) st.cache = none)
    (hU : oracleU (aggPrompt company articles) = .unparsable)
    (hF : oracleF (aggPrompt company articles) = .failure) :
    generate_comparative_analysis oracleU setOrder company articles st =
      .ok (basicResult setOrder articles,
           ⟨insertCache (compCacheKey company articles)
              (basicResult setOrder articles) st.cache, st.calls + 1⟩) ∧
    (basicResult setOrder articles).Sentiment_Distribution =
      sentimentDistOf articles ∧
    (basicResult setOrder articles).Average_Sentiment_Score =
      avgSentimentScore articles ∧
    (basicResult setOrder articles).Sentiment_Trend =
      some (txt "Unable to determine due to processing error") ∧
    (basicResult setOrder articles).Coverage_Differences =
      [⟨txt "Analysis encountered an error",
        (articles.take 2).map (fun a => a.Title),
        txt "Complete comparative analysis not available"⟩] ∧
    (basicResult setOrder articles).Sentiment_Drivers = ⟨[], []⟩ ∧
    (basicResult setOrder articles).Topic_Analysis =
      ⟨(setOrder (allTopicsOf articles)).take 5, []⟩ ∧
    generate_comparative_analysis oracleF setOrder company articles st =
      .error () := by
  refine ⟨?_, rfl, rfl, rfl, rfl, rfl, rfl, ?_⟩
  · simp [generate_comparative_analysis, hmiss, hU]
  · simp [generate_comparative_analysis, hmiss, hF]

theorem c3_parse_failure_degrades_witness :
    lookupCache (compCacheKey (txt "Acme") sampleArticles)
        (AggState.mk [] 0).cache = none ∧
    (fun _ : Text => (CallOutcome.unparsable : CallOutcome CompReply))
        (aggPrompt (txt "Acme") sampleArticles) = .unparsable ∧
    (fun _ : Text => (CallOutcome.failure : CallOutcome CompReply))
        (aggPrompt (txt "Acme") sampleArticles) = .failure ∧
    generate_comparative_analysis (fun _ => .unparsable) distinctFirst
        (txt "Acme") sampleArticles ⟨[], 0⟩ =
      .ok (basicResult distinctFirst sampleArticles,
           ⟨insertCache (compCacheKey (txt "Acme") sampleArticles)
              (basicResult distinctFirst sampleArticles) [], 1⟩) ∧
    (basicResult distinctFirst sampleArticles).Sentiment_Trend =
      some (txt "Unable to determine due to processing error") ∧
    generate_comparative_analysis (fun _ => .failure) distinctFirst
        (txt "Acme") sampleArticles ⟨[], 0⟩ = .error () :=
  have h := c3_parse_failure_degrades (fun _ => .unparsable)
    (fun _ => .failure) distinctFirst (txt "Acme") sampleArticles ⟨[], 0⟩
    rfl rfl rfl
  ⟨rfl, rfl, rfl, h.1, h.2.2.2.1, h.2.2.2.2.2.2.2⟩

/-- C7: when the aggregation reply parses but its coverage list is missing or
    empty, the result carries exactly the one synthetic fallback entry, whose
    involved articles are the first two input titles verbatim and whose
    comparison and impact are the fixed generic messages. -/
theorem c7_coverage_fallback
    (oracle : Text → CallOutcome CompReply)
    (setOrder : List Text → List Text) (company : Text)
    (articles : List AnalysisResult) (st : AggState)
    (r : ComparativeAnalysis) (st' : AggState) (reply : CompReply)
    (hmiss : lookupCache (compCacheKey company articles) st.cache = none)
    (hor : oracle (aggPrompt company articles) = .parsed reply)
    (hcov : reply.Coverage_Differences = none ∨
      reply.Coverage_Differences = some [])
    (h : generate_comparative_analysis oracle setOrder company articles st =
      .ok (r, st')) :
    r.Coverage_Differences = [fallbackCoverage articles] ∧
    (fallbackCoverage articles).Articles_Involved =
      (articles.take 2).map (fun a => a.Title) ∧
    (fallbackCoverage articles).Comparison =
      txt "Differences in reporting emphasis" ∧
    (fallbackCoverage articles).Impact =
      txt "Creates varied impressions of company priorities" := by
  simp only [generate_comparative_analysis, hmiss, hor] at h
  cases h
  refine ⟨?_, rfl, rfl, rfl⟩
  rcases hcov with hc | hc <;>
    simp [parsedResult, coverageOf, hc]

theorem c7_coverage_fallback_witness :
    lookupCache (compCacheKey (txt "Acme") sampleArticles)
        (AggState.mk [] 0).cache = none ∧
    emptyCompOracle (aggPrompt (txt "Acme") sampleArticles) =
      .parsed {} ∧
    (({} : CompReply).Coverage_Differences = none ∨
      ({} : CompReply).Coverage_Differences = some []) ∧
    generate_comparative_analysis emptyCompOracle distinctFirst (txt "Acme")
        sampleArticles ⟨[], 0⟩ =
      .ok (parsedResult distinctFirst sampleArticles {},
           ⟨insertCache (compCacheKey (txt "Acme") sampleArticles)
              (parsedResult distinctFirst sampleArticles {}) [], 1⟩) ∧
    (parsedResult distinctFirst sampleArticles {}).Coverage_Differences =
      [fallbackCoverage sampleArticles] ∧
    (fallbackCoverage sampleArticles).Articles_Involved =
      (sampleArticles.take 2).map (fun a => a.Title) :=
  have h := c7_coverage_fallback emptyCompOracle distinctFirst (txt "Acme")
    sampleArticles ⟨[], 0⟩ (parsedResult distinctFirst sampleArticles {})
    ⟨insertCache (compCacheKey (txt "Acme") sampleArticles)
       (parsedResult distinctFirst sampleArticles {}) [], 1⟩
    {} rfl rfl (Or.inl rfl) rfl
  ⟨rfl, rfl, Or.inl rfl, rfl, h.1, h.2.1⟩

theorem distinctFirst_loop_nodup (xs : List Text) (acc : List Text)
    (h : acc.Nodup) :
    (xs.foldl (fun acc x => if x ∈ acc then acc else acc ++ [x]) acc).Nodup := by
  induction xs generalizing acc with
  | nil => simpa
  | cons y ys ih =>
    simp only [List.foldl_cons]
    apply ih
    by_cases hy : y ∈ acc
    · simpa [hy]
    · simp [hy, List.nodup_append, h]

theorem distinctFirst_loop_mem (xs : List Text) (acc : List Text) (x : Text)
    (h : x ∈ xs.foldl (fun acc x => if x ∈ acc then acc else acc ++ [x]) acc) :
    x ∈ acc ∨ x ∈ xs := by
  induction xs generalizing acc with
  | nil => exact Or.inl (by simpa using h)
  | cons y ys ih =>
    rcases ih _ h with hx | hx
    · by_cases hy : y ∈ acc
      · simp only [if_pos hy] at hx
        exact Or.inl hx
      · simp only [if_neg hy, List.mem_append, List.mem_singleton] at hx
        rcases hx with hx | hx
        · exact Or.inl hx
        · exact Or.inr (by simp [hx])
    · exact Or.inr (List.mem_cons_of_mem _ hx)

/-- The first-occurrence deduplication has no duplicates. -/
theorem distinctFirst_nodup (xs : List Text) : (distinctFirst xs).Nodup :=
  distinctFirst_loop_nodup xs [] (by simp)

/-- Every element of the first-occurrence deduplication occurs in the input. -/
theorem distinctFirst_subset (xs : List Text) :
    ∀ x ∈ distinctFirst xs, x ∈ xs := fun x h =>
  (distinctFirst_loop_mem xs [] x h).resolve_left (by simp)

/-- C8 counterexample: the Python expression list(set(all_topics)) enumerates
    the distinct topics in an unspecified hash-dependent order, modelled by
    the setOrder environment parameter.  An admissible order that reverses
    the first-occurrence order is exhibited, under which the operation
    returns the observed distinct topics in an order different from
    first-observed order, refuting the claimed ordering. -/
theorem c8_first_observed_order_counterexample :
    ((fun xs => (distinctFirst xs).reverse) (allTopicsOf sampleArticles)).Perm
      (distinctFirst (allTopicsOf sampleArticles)) ∧
    ({} : CompReply).Topic_Analysis = none ∧
    (generate_comparative_analysis emptyCompOracle
        (fun xs => (distinctFirst xs).reverse) (txt "Acme") sampleArticles
        ⟨[], 0⟩).toOption.map
      (fun p => p.1.Topic_Analysis.Common_Topics) =
      some [txt "t2", txt "t1"] ∧
    some [txt "t2", txt "t1"] ≠
      some ((distinctFirst (allTopicsOf sampleArticles)).take 5) :=
  ⟨List.reverse_perm (distinctFirst (allTopicsOf sampleArticles)), rfl,
   by decide, by decide⟩

/-- C8 as amended: when the aggregation reply omits Topic_Analysis, the
    returned common topics are the 5-truncation of the set conversion of the
    observed topics — duplicate-free, drawn from the observed topics, at most
    five, but in the unspecified set iteration order rather than necessarily
    first-observed order — and the topic sentiment map defaults to the empty
    mapping. -/
theorem c8_topic_defaults_amended
    (oracle : Text → CallOutcome CompReply)
    (setOrder : List Text → List Text) (company : Text)
    (articles : List AnalysisResult) (st : AggState)
    (r : ComparativeAnalysis) (st' : AggState) (reply : CompReply)
    (hperm : (setOrder (allTopicsOf articles)).Perm
      (distinctFirst (allTopicsOf articles)))
    (hmiss : lookupCache (compCacheKey company articles) st.cache = none)
    (hor : oracle (aggPrompt company articles) = .parsed reply)
    (htop : reply.Topic_Analysis = none)
    (h : generate_comparative_analysis oracle setOrder company articles st =
      .ok (r, st')) :
    r.Topic_Analysis =
      ⟨(setOrder (allTopicsOf articles)).take 5, []⟩ ∧
    r.Topic_Analysis.Common_Topics.Nodup ∧
    (∀ x ∈ r.Topic_Analysis.Common_Topics, x ∈ allTopicsOf articles) ∧
    r.Topic_Analysis.Common_Topics.length ≤ 5 ∧
    r.Topic_Analysis.Topic_Sentiment_Map = [] := by
  simp only [generate_comparative_analysis, hmiss, hor] at h
  cases h
  have hTA : (parsedResult setOrder articles reply).Topic_Analysis =
      ⟨(setOrder (allTopicsOf articles)).take 5, []⟩ := by
    simp [parsedResult, htop]
  refine ⟨hTA, ?_, ?_, ?_, by rw [hTA]⟩
  · rw [hTA]
    exact (List.take_sublist 5 _).nodup
      (hperm.nodup_iff.mpr (distinctFirst_nodup _))
  · rw [hTA]
    intro x hx
    exact distinctFirst_subset _ x
      (hperm.mem_iff.mp (List.mem_of_mem_take hx))
  · rw [hTA]
    simp

theorem c8_topic_defaults_amended_witness :
    (distinctFirst (allTopicsOf sampleArticles)).Perm
      (distinctFirst (allTopicsOf sampleArticles)) ∧
    lookupCache (compCacheKey (txt "Acme") sampleArticles)
        (AggState.mk [] 0).cache = none ∧
    emptyCompOracle (aggPrompt (txt "Acme") sampleArticles) = .parsed {} ∧
    ({} : CompReply).Topic_Analysis = none ∧
    generate_comparative_analysis emptyCompOracle distinctFirst (txt "Acme")
        sampleArticles ⟨[], 0⟩ =
      .ok (parsedResult distinctFirst sampleArticles {},
           ⟨insertCache (compCacheKey (txt "Acme") sampleArticles)
              (parsedResult distinctFirst sampleArticles {}) [], 1⟩) ∧
    (parsedResult distinctFirst sampleArticles {}).Topic_Analysis =
      ⟨(distinctFirst (allTopicsOf sampleArticles)).take 5, []⟩ ∧
    (parsedResult distinctFirst sampleArticles
        {}).Topic_Analysis.Common_Topics.Nodup :=
  have h := c8_topic_defaults_amended emptyCompOracle distinctFirst
    (txt "Acme") sampleArticles ⟨[], 0⟩
    (parsedResult distinctFirst sampleArticles {})
    ⟨insertCache (compCacheKey (txt "Acme") sampleArticles)
       (parsedResult distinctFirst sampleArticles {}) [], 1⟩
    {} (List.Perm.refl _) rfl rfl rfl rfl
  ⟨List.Perm.refl _, rfl, rfl, rfl, rfl, h.1, h.2.1⟩

theorem retryLoop_ok (gen : Nat → Attempt) (retries : Nat) (sleeps : List Nat)
    (t : Text) (hle : retries ≤ 3) (h : gen retries = .ok t) :
    retryLoop gen retries sleeps = .ok (t, sleeps) := by
  conv_lhs => rw [retryLoop.eq_def]
  simp [hle, h]

theorem retryLoop_retry (gen : Nat → Attempt) (retries : Nat)
    (sleeps : List Nat) (hlt : retries < 3) (h : gen retries = .err true) :
    retryLoop gen retries sleeps =
      retryLoop gen (retries + 1) (sleeps ++ [2 * 2 ^ retries]) := by
  conv_lhs => rw [retryLoop.eq_def]
  simp [hlt.le, h, hlt]

theorem retryLoop_fail_other (gen : Nat → Attempt) (retries : Nat)
    (sleeps : List Nat) (hle : retries ≤ 3) (h : gen retries = .err false) :
    retryLoop gen retries sleeps = .error (.other, sleeps) := by
  conv_lhs => rw [retryLoop.eq_def]
  simp [hle, h]

theorem retryLoop_fail_exhausted (gen : Nat → Attempt) (sleeps : List Nat)
    (h : gen 3 = .err true) :
    retryLoop gen 3 sleeps = .error (.rateLimited, sleeps) := by
  conv_lhs => rw [retryLoop.eq_def]
  simp [h]

/-- C6: the retry wrapper retries a rate-limited call up to a budget of 3
    retries, sleeping 2 * 2 ^ attempt seconds before each retry (2, 4 and 8
    seconds); once the budget is exhausted on a rate-limited failure, or
    immediately on any non-rate-limit failure, it surfaces an error carrying
    the last underlying failure cause instead of returning a value; a
    successful first attempt returns its text with no sleeps. -/
theorem c6_retry_backoff_budget (genR genO genS : Nat → Attempt) (t : Text)
    (k : Nat)
    (hR : ∀ i, i ≤ 3 → genR i = .err true)
    (hk : k ≤ 3) (hO : genO k = .err false)
    (hO' : ∀ i, i < k → genO i = .err true)
    (hS : genS 0 = .ok t) :
    _call_api_with_retry genR = .error (.rateLimited, [2, 4, 8]) ∧
    _call_api_with_retry genO =
      .error (.other, (List.range k).map fun i => 2 * 2 ^ i) ∧
    _call_api_with_retry genS = .ok (t, []) := by
  refine ⟨?_, ?_, ?_⟩
  · have e0 := retryLoop_retry genR 0 [] (by omega) (hR 0 (by omega))
    have e1 := retryLoop_retry genR 1 [2] (by omega) (hR 1 (by omega))
    have e2 := retryLoop_retry genR 2 [2, 4] (by omega) (hR 2 (by omega))
    have e3 := retryLoop_fail_exhausted genR [2, 4, 8] (hR 3 (by omega))
    norm_num at e0 e1 e2
    unfold _call_api_with_retry
    rw [e0, e1, e2, e3]
  · unfold _call_api_with_retry
    interval_cases k
    · rw [retryLoop_fail_other genO 0 [] (by omega) hO]
      simp
    · have e0 := retryLoop_retry genO 0 [] (by omega) (hO' 0 (by omega))
      have e1 := retryLoop_fail_other genO 1 [2] (by omega) hO
      norm_num at e0
      rw [e0, e1]
      norm_num [List.range_succ]
    · have e0 := retryLoop_retry genO 0 [] (by omega) (hO' 0 (by omega))
      have e1 := retryLoop_retry genO 1 [2] (by omega) (hO' 1 (by omega))
      have e2 := retryLoop_fail_other genO 2 [2, 4] (by omega) hO
      norm_num at e0 e1
      rw [e0, e1, e2]
      norm_num [List.range_succ]
    · have e0 := retryLoop_retry genO 0 [] (by omega) (hO' 0 (by omega))
      have e1 := retryLoop_retry genO 1 [2] (by omega) (hO' 1 (by omega))
      have e2 := retryLoop_retry genO 2 [2, 4] (by omega) (hO' 2 (by omega))
      have e3 := retryLoop_fail_other genO 3 [2, 4, 8] (by omega) hO
      norm_num at e0 e1 e2
      rw [e0, e1, e2, e3]
      norm_num [List.range_succ]
  · exact retryLoop_ok genS 0 [] t (by omega) hS

theorem c6_retry_backoff_budget_witness :
    (∀ i, i ≤ 3 → (fun _ : Nat => Attempt.err true) i = .err true) ∧
    (2 : Nat) ≤ 3 ∧
    (fun i : Nat => if i = 2 then Attempt.err false else .err true) 2 =
      .err false ∧
    (∀ i, i < 2 →
      (fun i : Nat => if i = 2 then Attempt.err false else .err true) i =
        .err true) ∧
    (fun _ : Nat => Attempt.ok (txt "reply")) 0 = .ok (txt "reply") ∧
    _call_api_with_retry (fun _ => .err true) =
      .error (.rateLimited, [2, 4, 8]) ∧
    _call_api_with_retry
        (fun i => if i = 2 then Attempt.err false else .err true) =
      .error (.other, (List.range 2).map fun i => 2 * 2 ^ i) ∧
    _call_api_with_retry (fun _ => .ok (txt "reply")) = .ok (txt "reply", []) :=
  have hO' : ∀ i, i < 2 →
      (fun i : Nat => if i = 2 then Attempt.err false else .err true) i =
        .err true := fun i hi => by
    have hne : i ≠ 2 := by omega
    simp [hne]
  have h := c6_retry_backoff_budget (fun _ => .err true)
    (fun i => if i = 2 then Attempt.err false else .err true)
    (fun _ => .ok (txt "reply")) (txt "reply") 2
    (fun _ _ => rfl) (by omega) (by simp) hO' rfl
  ⟨fun _ _ => rfl, by omega, by simp, hO', rfl, h.1, h.2.1, h.2.2⟩

theorem chunksOf_nil (n : Nat) : chunksOf n [] = [] := by
  rw [chunksOf.eq_def]
  simp

theorem chunksOf_flatten_aux (n : Nat) (hn : n ≠ 0) :
    ∀ (L : Nat) (t : Text), t.length = L → (chunksOf n t).flatten = t := by
  intro L
  induction L using Nat.strong_induction_on with
  | _ L ih =>
    intro t hL
    rw [chunksOf.eq_def]
    by_cases ht : t = []
    · simp [ht]
    · simp only [if_neg ht, if_neg hn, List.flatten_cons]
      have hlt : (t.drop n).length < L := by
        have hpos : 0 < t.length := List.length_pos.mpr ht
        rw [List.length_drop]
        omega
      rw [ih (t.drop n).length hlt (t.drop n) rfl]
      exact List.take_append_drop n t

/-- The chunk decomposition is a cover of the text: the chunks concatenated
    in order with no separator give back the text, so they are consecutive
    and non-overlapping. -/
theorem chunksOf_flatten (n : Nat) (hn : n ≠ 0) (t : Text) :
    (chunksOf n t).flatten = t :=
  chunksOf_flatten_aux n hn t.length t rfl

theorem chunksOf_dropLast_aux (n : Nat) (hn : n ≠ 0) :
    ∀ (L : Nat) (t : Text), t.length = L →
      ∀ c ∈ (chunksOf n t).dropLast, c.length = n := by
  intro L
  induction L using Nat.strong_induction_on with
  | _ L ih =>
    intro t hL c hc
    rw [chunksOf.eq_def] at hc
    by_cases ht : t = []
    · simp [ht] at hc
    · simp only [if_neg ht, if_neg hn] at hc
      by_cases hrest : chunksOf n (t.drop n) = []
      · simp [hrest] at hc
      · rw [List.dropLast_cons_of_ne_nil hrest] at hc
        rcases List.mem_cons.mp hc with hc | hc
        · subst hc
          have hgt : n < t.length := by
            by_contra hle
            push_neg at hle
            have : t.drop n = [] := List.drop_eq_nil_of_le hle
            rw [this, chunksOf_nil] at hrest
            exact hrest rfl
          rw [List.length_take]
          omega
        · have hlt : (t.drop n).length < L := by
            have hpos : 0 < t.length := List.length_pos.mpr ht
            rw [List.length_drop]
            omega
          exact ih (t.drop n).length hlt (t.drop n) rfl c hc

theorem ckptStep_success (primary fallback : Text → Option Text)
    (f : Text → Text) (hp : ∀ c, primary c = some (f c)) (acc : Text)
    (st : TransState) (chunk : Text) :
    ckptStep primary fallback (acc, st) chunk =
      (acc ++ f chunk,
       ⟨st.cache, st.calls + 1, st.fallbackCalls, st.sleeps + 1⟩) := by
  simp [ckptStep, translateChunkCkpt, hp chunk]

theorem ckpt_foldl_success (primary fallback : Text → Option Text)
    (f : Text → Text) (hp : ∀ c, primary c = some (f c))
    (chunks : List Text) :
    ∀ (acc : Text) (st : TransState),
      chunks.foldl (ckptStep primary fallback) (acc, st) =
        (acc ++ (chunks.map f).flatten,
         ⟨st.cache, st.calls + chunks.length, st.fallbackCalls,
          st.sleeps + chunks.length⟩) := by
  induction chunks with
  | nil => intro acc st; simp
  | cons chunk rest ih =>
    intro acc st
    rw [List.foldl_cons, ckptStep_success primary fallback f hp, ih]
    simp only [Prod.mk.injEq, List.map_cons, List.flatten_cons,
      List.append_assoc, List.length_cons, TransState.mk.injEq, and_true,
      true_and]
    omega

/-- C4 counterexample: the live translation operation does not chunk.  On a
    text of length exactly 2 * 4000 it issues exactly one external call
    carrying the whole text, not the two chunk calls the claim requires. -/
theorem c4_no_chunking_counterexample :
    (List.replicate 8000 'a').length = 2 * 4000 ∧
    translate_to_hindi (fun _ => some (txt "h")) (List.replicate 8000 'a')
        ⟨[], 0, 0, 0⟩ =
      .ok (stripText (txt "h"),
           ⟨insertCache (translationCacheKey (List.replicate 8000 'a'))
              (stripText (txt "h")) [], 1, 0, 0⟩) ∧
    (1 : Nat) ≠ 2 :=
  ⟨by rw [List.length_replicate], rfl, by omega⟩

/-- C4 as amended: the live translation operation never chunks — for every
    input text, whatever its length, it issues exactly one external call
    carrying the full text and returns that single call reply stripped.  The
    4000-character chunking belongs only to the superseded checkpoint
    variant, where, when every chunk call succeeds, a text within the budget
    is translated in one call and a longer text is split into consecutive
    non-overlapping chunks — every chunk before the last of length exactly
    4000, the chunks concatenating back to the text — with one primary call
    and one one-second pacing sleep per chunk and the per-chunk results
    concatenated in original order with no separator. -/
theorem c4_translation_chunking_amended
    (caller primary fallback : Text → Option Text) (f : Text → Text)
    (anyText shortText longText : Text) (st : TransState) (reply : Text)
    (hmissA : lookupCache (translationCacheKey anyText) st.cache = none)
    (hcall : caller (translationPrompt anyText) = some reply)
    (hp : ∀ c, primary c = some (f c))
    (hmissS : lookupCache (translationCacheKey shortText) st.cache = none)
    (hshort : shortText.length ≤ 4000)
    (hmissL : lookupCache (translationCacheKey longText) st.cache = none)
    (hlong : 4000 < longText.length) :
    translate_to_hindi caller anyText st =
      .ok (stripText reply,
           { st with
              cache := insertCache (translationCacheKey anyText)
                (stripText reply) st.cache,
              calls := st.calls + 1 }) ∧
    translate_to_hindi_ckpt primary fallback shortText st =
      (f shortText,
       ⟨insertCache (translationCacheKey shortText) (f shortText) st.cache,
        st.calls + 1, st.fallbackCalls, st.sleeps⟩) ∧
    translate_to_hindi_ckpt primary fallback longText st =
      (((chunksOf 4000 longText).map f).flatten,
       ⟨insertCache (translationCacheKey longText)
          (((chunksOf 4000 longText).map f).flatten) st.cache,
        st.calls + (chunksOf 4000 longText).length, st.fallbackCalls,
        st.sleeps + (chunksOf 4000 longText).length⟩) ∧
    (chunksOf 4000 longText).flatten = longText ∧
    (∀ c ∈ (chunksOf 4000 longText).dropLast, c.length = 4000) := by
  refine ⟨?_, ?_, ?_, chunksOf_flatten 4000 (by omega) longText,
    chunksOf_dropLast_aux 4000 (by omega) longText.length longText rfl⟩
  · simp [translate_to_hindi, hmissA, hcall]
  · have hnotlong : ¬ 4000 < shortText.length := by omega
    simp [translate_to_hindi_ckpt, hmissS, hnotlong, translateChunkCkpt,
      hp shortText]
  · simp only [translate_to_hindi_ckpt, hmissL, if_pos hlong,
      ckpt_foldl_success primary fallback f hp]
    simp

theorem c4_translation_chunking_amended_witness :
    lookupCache (translationCacheKey (txt "hello"))
        (TransState.mk [] 0 0 0).cache = none ∧
    (fun _ : Text => some (txt "h")) (translationPrompt (txt "hello")) =
      some (txt "h") ∧
    (∀ c : Text, (fun c => some (txt "H" ++ c)) c =
      some ((fun c : Text => txt "H" ++ c) c)) ∧
    lookupCache (translationCacheKey (txt "s"))
        (TransState.mk [] 0 0 0).cache = none ∧
    (txt "s").length ≤ 4000 ∧
    lookupCache (translationCacheKey (List.replicate 8001 'a'))
        (TransState.mk [] 0 0 0).cache = none ∧
    4000 < (List.replicate 8001 'a').length ∧
    translate_to_hindi (fun _ => some (txt "h")) (txt "hello") ⟨[], 0, 0, 0⟩ =
      .ok (stripText (txt "h"),
           ⟨insertCache (translationCacheKey (txt "hello"))
              (stripText (txt "h")) [], 1, 0, 0⟩) ∧
    (chunksOf 4000 (List.replicate 8001 'a')).flatten =
      List.replicate 8001 'a' ∧
    (∀ c ∈ (chunksOf 4000 (List.replicate 8001 'a')).dropLast,
      c.length = 4000) :=
  have hlong : 4000 < (List.replicate 8001 'a').length := by
    rw [List.length_replicate]
    norm_num
  have h := c4_translation_chunking_amended (fun _ => some (txt "h"))
    (fun c => some (txt "H" ++ c)) (fun _ => none)
    (fun c : Text => txt "H" ++ c) (txt "hello") (txt "s")
    (List.replicate 8001 'a') ⟨[], 0, 0, 0⟩ (txt "h") rfl rfl
    (fun c => rfl) rfl (by decide) rfl hlong
  ⟨rfl, rfl, fun c => rfl, rfl, by decide, rfl, hlong, h.1, h.2.2.2.1,
   h.2.2.2.2⟩

/-- C5: in the live translation operation the whole text is submitted in a
    single call; when that call fails the operation propagates the error to
    the caller and returns nothing, and when it succeeds the returned text is
    exactly the stripped reply of that call — never a partial concatenation
    and never the untranslated source substituted on failure. -/
theorem c5_failure_propagates_no_partial
    (callerF callerS : Text → Option Text) (text : Text) (st : TransState)
    (reply : Text)
    (hmiss : lookupCache (translationCacheKey text) st.cache = none)
    (hF : callerF (translationPrompt text) = none)
    (hS : callerS (translationPrompt text) = some reply) :
    translate_to_hindi callerF text st = .error () ∧
    translate_to_hindi callerS text st =
      .ok (stripText reply,
           { st with
              cache := insertCache (translationCacheKey text)
                (stripText reply) st.cache,
              calls := st.calls + 1 }) := by
  constructor
  · simp [translate_to_hindi, hmiss, hF]
  · simp [translate_to_hindi, hmiss, hS]

theorem c5_failure_propagates_no_partial_witness :
    lookupCache (translationCacheKey (txt "hello"))
        (TransState.mk [] 0 0 0).cache = none ∧
    (fun _ : Text => (none : Option Text)) (translationPrompt (txt "hello")) =
      none ∧
    (fun _ : Text => some (txt "h")) (translationPrompt (txt "hello")) =
      some (txt "h") ∧
    translate_to_hindi (fun _ => none) (txt "hello") ⟨[], 0, 0, 0⟩ =
      .error () ∧
    translate_to_hindi (fun _ => some (txt "h")) (txt "hello") ⟨[], 0, 0, 0⟩ =
      .ok (stripText (txt "h"),
           ⟨insertCache (translationCacheKey (txt "hello"))
              (stripText (txt "h")) [], 1, 0, 0⟩) :=
  have h := c5_failure_propagates_no_partial (fun _ => none)
    (fun _ => some (txt "h")) (txt "hello") ⟨[], 0, 0, 0⟩ (txt "h")
    rfl rfl rfl
  ⟨rfl, rfl, rfl, h.1, h.2⟩
